import Mathlib

/-!
Verification of the VoiceHealth JSON schema validator
(src/json_filter/validate_voicehealth_json.c) against its specification.

The validator parses an input text as a generic JSON value and checks a
fixed schema: key "symptoms" must be an array, key "severity" must be a
number in the inclusive range 0 to 10, and key "potential_triggers" must
be an array.  On failure a fixed diagnostic string is written, with
truncation, into a caller-supplied buffer.

Embedding choices:
* A C string pointer is `Option String`; `none` models a null pointer.
* The caller's error buffer is `Option (List Char)`; `none` models a null
  pointer, and the list holds the bytes of the buffer (the character of
  code zero models the NUL byte).
* cJSON "number" payloads (C doubles) are modelled exactly, as the
  rational value of the parsed literal, kept as an integer numerator over
  a positive power-of-ten denominator (`CDouble`); the only operation the
  validator performs on a number is an order comparison against the
  integer constants 0 and 10, which this exact model reflects.
* The third-party generic JSON parser (cJSON, declared a dependency by
  the repository but not part of it) is modelled from the spec, see
  `cJSON_Parse` below.
-/

/-- The numeric payload of a parsed JSON number (the C `double`
`valuedouble` of cJSON), modelled exactly as the rational value of the
literal: an integer numerator over a positive denominator. -/
structure CDouble where
  num : Int
  den : Nat
  dpos : 0 < den

/-- The rational value a `CDouble` denotes. -/
def CDouble.toRat (d : CDouble) : ℚ :=
  (d.num : ℚ) / (d.den : ℚ)

/-- The C comparison `value < k` on the denoted value, as the equivalent
integer comparison (the denominator is positive). -/
def CDouble.ltInt (d : CDouble) (k : Int) : Prop :=
  d.num < k * (d.den : Int)

/-- The C comparison `value > k` on the denoted value, as the equivalent
integer comparison (the denominator is positive). -/
def CDouble.gtInt (d : CDouble) (k : Int) : Prop :=
  k * (d.den : Int) < d.num

instance (d : CDouble) (k : Int) : Decidable (CDouble.ltInt d k) :=
  inferInstanceAs (Decidable (_ < _))

instance (d : CDouble) (k : Int) : Decidable (CDouble.gtInt d k) :=
  inferInstanceAs (Decidable (_ < _))

/-- A generic JSON value, mirroring the variants of the cJSON tree used by
the validator: Null, Boolean, Number, String, Array, Object.  Object
fields keep their textual order, as cJSON keeps a child list. -/
inductive Json where
  | null : Json
  | bool (b : Bool) : Json
  | num (d : CDouble) : Json
  | str (s : String) : Json
  | arr (items : List Json) : Json
  | obj (fields : List (String × Json)) : Json

/-- Variant test mirroring `cJSON_IsObject`. -/
def cJSON_IsObject : Json → Bool
  | Json.obj _ => true
  | _ => false

/-- Variant test mirroring `cJSON_IsArray`. -/
def cJSON_IsArray : Json → Bool
  | Json.arr _ => true
  | _ => false

/-- Variant test mirroring `cJSON_IsNumber`. -/
def cJSON_IsNumber : Json → Bool
  | Json.num _ => true
  | _ => false

/-- First field of an object child list whose key matches exactly
(case-sensitive), mirroring `cJSON_GetObjectItemCaseSensitive`; `none`
models the NULL result for a missing key or a non-object argument. -/
def lookupField : List (String × Json) → String → Option Json
  | [], _ => none
  | (k, v) :: rest, name => if k = name then some v else lookupField rest name

/-- Case-sensitive object member lookup, mirroring
`cJSON_GetObjectItemCaseSensitive(root, name)`. -/
def cJSON_GetObjectItemCaseSensitive (root : Json) (name : String) : Option Json :=
  match root with
  | Json.obj fields => lookupField fields name
  | _ => none

/-- Modelled from the spec: the generic JSON parser skips the whitespace
bytes that cJSON skips, namely every byte of value at most 32. -/
def skipWs : List Char → List Char
  | [] => []
  | c :: rest => if c.toNat ≤ 32 then skipWs rest else c :: rest

/-- Numeric value of a decimal digit sequence. -/
def digitsToNat (ds : List Char) : Nat :=
  ds.foldl (fun a c => 10 * a + (c.toNat - 48)) 0

/-- Numeric value of one hexadecimal digit, if it is one. -/
def hexDigitVal (c : Char) : Option Nat :=
  if c.isDigit then some (c.toNat - 48)
  else if 'a' ≤ c ∧ c ≤ 'f' then some (c.toNat - 87)
  else if 'A' ≤ c ∧ c ≤ 'F' then some (c.toNat - 55)
  else none

/-- Modelled from the spec: exponent suffix of a JSON number literal.
Returns the signed exponent and the remaining input; when no well-formed
exponent follows, returns exponent zero and the original input, as a
C `strtod` stops before a dangling exponent marker. -/
def parseExpDigits (sign : Int) (r : List Char) (orig : List Char) : Int × List Char :=
  match r.span Char.isDigit with
  | (eds, r2) => if eds.isEmpty then (0, orig) else (sign * (digitsToNat eds : Int), r2)

/-- Modelled from the spec: optional exponent part of a number literal. -/
def parseExponent (s : List Char) : Int × List Char :=
  match s with
  | [] => (0, s)
  | c :: r =>
    if c = 'e' ∨ c = 'E' then
      match r with
      | '+' :: r2 => parseExpDigits 1 r2 s
      | '-' :: r2 => parseExpDigits (-1) r2 s
      | _ => parseExpDigits 1 r s
    else (0, s)

/-- Scale an exact number by a signed power of ten (the exponent of the
literal): a nonnegative exponent multiplies the numerator, a negative one
multiplies the denominator. -/
def applyExp (d : CDouble) (e : Int) : CDouble :=
  if 0 ≤ e then ⟨d.num * (10 : Int) ^ e.toNat, d.den, d.dpos⟩
  else ⟨d.num, d.den * 10 ^ (-e).toNat, Nat.mul_pos d.dpos (Nat.pos_pow_of_pos _ (by decide))⟩

/-- Modelled from the spec: a JSON number literal (optional minus, integer
digits, optional fraction, optional exponent), read exactly, with the C
double replaced by the exact rational value of the literal. -/
def parseNumber (s : List Char) : Option (CDouble × List Char) :=
  let signSplit : Bool × List Char :=
    match s with
    | '-' :: r => (true, r)
    | _ => (false, s)
  match (signSplit.2).span Char.isDigit with
  | (intDs, s2) =>
    if intDs.isEmpty then none
    else
      let fracSplit : List Char × List Char :=
        match s2 with
        | '.' :: r => r.span Char.isDigit
        | _ => ([], s2)
      match parseExponent fracSplit.2 with
      | (ex, s4) =>
        let m : Int := (digitsToNat (intDs ++ fracSplit.1) : Int)
        let base : CDouble :=
          ⟨if signSplit.1 then -m else m, 10 ^ (fracSplit.1).length,
            Nat.pos_pow_of_pos _ (by decide)⟩
        some (applyExp base ex, s4)

/-- Modelled from the spec: body of a JSON string literal after the opening
quote, with the usual escape sequences; `acc` holds the decoded characters
in reverse.  The fuel argument bounds recursion depth. -/
def parseStringBody : Nat → List Char → List Char → Option (String × List Char)
  | 0, _, _ => none
  | fuel + 1, acc, input =>
    match input with
    | [] => none
    | c :: rest =>
      if c = '"' then some (String.mk acc.reverse, rest)
      else if c = '\\' then
        match rest with
        | [] => none
        | e :: rest2 =>
          if e = '"' then parseStringBody fuel ('"' :: acc) rest2
          else if e = '\\' then parseStringBody fuel ('\\' :: acc) rest2
          else if e = '/' then parseStringBody fuel ('/' :: acc) rest2
          else if e = 'b' then parseStringBody fuel (Char.ofNat 8 :: acc) rest2
          else if e = 'f' then parseStringBody fuel (Char.ofNat 12 :: acc) rest2
          else if e = 'n' then parseStringBody fuel ('\n' :: acc) rest2
          else if e = 'r' then parseStringBody fuel ('\r' :: acc) rest2
          else if e = 't' then parseStringBody fuel ('\t' :: acc) rest2
          else if e = 'u' then
            match rest2 with
            | h1 :: h2 :: h3 :: h4 :: rest3 =>
              match hexDigitVal h1, hexDigitVal h2, hexDigitVal h3, hexDigitVal h4 with
              | some a, some b, some c2, some d =>
                parseStringBody fuel (Char.ofNat (((a * 16 + b) * 16 + c2) * 16 + d) :: acc) rest3
              | _, _, _, _ => none
            | _ => none
          else none
      else parseStringBody fuel (c :: acc) rest

mutual

/-- Modelled from the spec: recursive descent over the grammar of a single
generic JSON value (null, booleans, numbers, strings, arrays, objects),
returning the parsed value and the unconsumed input.  The fuel argument
bounds recursion depth and is chosen large enough for the whole input. -/
def parseValue : Nat → List Char → Option (Json × List Char)
  | 0, _ => none
  | fuel + 1, input =>
    match skipWs input with
    | [] => none
    | c :: rest =>
      if c = 'n' then
        match rest with
        | 'u' :: 'l' :: 'l' :: r => some (Json.null, r)
        | _ => none
      else if c = 't' then
        match rest with
        | 'r' :: 'u' :: 'e' :: r => some (Json.bool true, r)
        | _ => none
      else if c = 'f' then
        match rest with
        | 'a' :: 'l' :: 's' :: 'e' :: r => some (Json.bool false, r)
        | _ => none
      else if c = '"' then
        match parseStringBody fuel [] rest with
        | some (s, r) => some (Json.str s, r)
        | none => none
      else if c = '-' ∨ c.isDigit then
        match parseNumber (c :: rest) with
        | some (q, r) => some (Json.num q, r)
        | none => none
      else if c = '[' then
        match skipWs rest with
        | ']' :: r => some (Json.arr [], r)
        | r2 =>
          match parseElems fuel r2 with
          | some (items, r) => some (Json.arr items, r)
          | none => none
      else if c = '{' then
        match skipWs rest with
        | '}' :: r => some (Json.obj [], r)
        | r2 =>
          match parseMembers fuel r2 with
          | some (fields, r) => some (Json.obj fields, r)
          | none => none
      else none

/-- Modelled from the spec: comma-separated array elements up to the
closing bracket. -/
def parseElems : Nat → List Char → Option (List Json × List Char)
  | 0, _ => none
  | fuel + 1, input =>
    match parseValue fuel input with
    | none => none
    | some (v, r) =>
      match skipWs r with
      | ',' :: r2 =>
        match parseElems fuel r2 with
        | some (items, r3) => some (v :: items, r3)
        | none => none
      | ']' :: r2 => some ([v], r2)
      | _ => none

/-- Modelled from the spec: comma-separated object members (string key,
colon, value) up to the closing brace. -/
def parseMembers : Nat → List Char → Option (List (String × Json) × List Char)
  | 0, _ => none
  | fuel + 1, input =>
    match skipWs input with
    | '"' :: r =>
      match parseStringBody fuel [] r with
      | none => none
      | some (key, r2) =>
        match skipWs r2 with
        | ':' :: r3 =>
          match parseValue fuel r3 with
          | none => none
          | some (v, r4) =>
            match skipWs r4 with
            | ',' :: r5 =>
              match parseMembers fuel r5 with
              | some (fields, r6) => some ((key, v) :: fields, r6)
              | none => none
            | '}' :: r5 => some ([(key, v)], r5)
            | _ => none
        | _ => none
    | _ => none

end

/-- Bytes of a C string value: the characters of the Lean string up to the
first NUL, since a C string ends at its first NUL byte. -/
def cString (s : String) : List Char :=
  s.toList.takeWhile (fun c => c ≠ Char.ofNat 0)

/-- Modelled from the spec: `cJSON_Parse` of the third-party cJSON library,
which the repository declares as a dependency but does not contain.  Per
the spec it parses the input as one generic JSON value and fails on
malformed syntax; trailing content after the value is parser-defined and,
like cJSON, tolerated.  A leading byte-order mark is skipped as cJSON
skips one. -/
def cJSON_Parse (s : String) : Option Json :=
  let cs0 := cString s
  let cs :=
    match cs0 with
    | c :: r => if c = Char.ofNat 0xFEFF then r else cs0
    | [] => cs0
  match parseValue (2 * cs.length + 8) cs with
  | some (v, _) => some v
  | none => none

/-- The severity lower bound of the schema (`#define SEVERITY_MIN 0`). -/
def SEVERITY_MIN : Int := 0

/-- The severity upper bound of the schema (`#define SEVERITY_MAX 10`). -/
def SEVERITY_MAX : Int := 10

/-- One `snprintf(error_msg, error_size, "%s", msg)` write into a buffer of
bytes: at most `size - 1` characters of the message, then a NUL
terminator; bytes of the buffer beyond the written region keep their old
content.  Only meaningful for `0 < size`, which `set_error` guarantees. -/
def snprintf_s (buf : List Char) (size : Nat) (msg : String) : List Char :=
  let written := msg.toList.take (size - 1) ++ [Char.ofNat 0]
  written ++ buf.drop written.length

/-- The `set_error` helper of the source: writes the message into the
caller's buffer only when the buffer pointer is non-null and the capacity
is positive; otherwise the buffer (when present) is left untouched. -/
def set_error (error_msg : Option (List Char)) (error_size : Nat) (msg : String) :
    Option (List Char) :=
  match error_msg with
  | none => none
  | some buf => if 0 < error_size then some (snprintf_s buf error_size msg) else some buf

/-- The C test `item != NULL && cJSON_IsArray(item)` on a looked-up child. -/
def item_is_array (it : Option Json) : Bool :=
  match it with
  | some v => cJSON_IsArray v
  | none => false

/-- The C test `item != NULL && cJSON_IsNumber(item)` on a looked-up child. -/
def item_is_number (it : Option Json) : Bool :=
  match it with
  | some v => cJSON_IsNumber v
  | none => false

/-- The `valuedouble` field read `severity_item->valuedouble`, on the
looked-up child (cJSON stores zero there for non-number items; the source
only reads it after `cJSON_IsNumber` succeeded). -/
def item_valuedouble (it : Option Json) : CDouble :=
  match it with
  | some (Json.num d) => d
  | _ => ⟨0, 1, Nat.one_pos⟩

/-- The decision core of `validate_voicehealth_json`: the returned int
(1 valid, 0 invalid) together with the diagnostic message the source
passes to `set_error` on the taken branch (`none` on the success path,
where no `set_error` call occurs).  The branch order and the message
literals mirror the source exactly; the C locals `symptoms`,
`severity_item`, `s` and `potential_triggers` are inlined. -/
def validate_decision (json_string : Option String) : Nat × Option String :=
  match json_string with
  | none => (0, some ("Input string is null"))
  | some s =>
    match cJSON_Parse s with
    | none => (0, some ("Malformed JSON"))
    | some root =>
      if !(cJSON_IsObject root) then (0, some ("Root must be a JSON object"))
      else if !(item_is_array (cJSON_GetObjectItemCaseSensitive root ("symptoms"))) then
        (0, some ("Missing or invalid 'symptoms' (must be array)"))
      else if !(item_is_number (cJSON_GetObjectItemCaseSensitive root ("severity"))) then
        (0, some ("Missing or invalid 'severity' (must be number)"))
      else if (item_valuedouble (cJSON_GetObjectItemCaseSensitive root ("severity"))).ltInt
            SEVERITY_MIN ∨
          (item_valuedouble (cJSON_GetObjectItemCaseSensitive root ("severity"))).gtInt
            SEVERITY_MAX then
        (0, some ("Severity must be between 0 and 10"))
      else if !(item_is_array (cJSON_GetObjectItemCaseSensitive root ("potential_triggers"))) then
        (0, some ("Missing or invalid 'potential_triggers' (must be array)"))
      else (1, none)

/-- `validate_voicehealth_json(json_string, error_msg, error_size)`:
the source takes the branch `validate_decision` describes and, on every
failing branch, calls `set_error` with that branch's message before
returning 0; the success branch returns 1 without touching the buffer.
Returns the int result and the final contents of the error buffer. -/
def validate_voicehealth_json (json_string : Option String)
    (error_msg : Option (List Char)) (error_size : Nat) : Nat × Option (List Char) :=
  match validate_decision json_string with
  | (r, none) => (r, error_msg)
  | (r, some m) => (r, set_error error_msg error_size m)

/-- The caller-visible memory regions of one call: the bytes of the input
string buffer (`none` for a null `json_string`) and the bytes of the
error buffer (`none` for a null `error_msg`). -/
structure CallState where
  input : Option (List Char)
  errbuf : Option (List Char)

/-- The call acting on caller-visible memory.  The source takes the input
through a `const char *` and never writes through it (only `cJSON_Parse`
reads it), so the input region passes through unchanged and only the
error buffer is updated. -/
def validate_voicehealth_json_mem (st : CallState) (error_size : Nat) : Nat × CallState :=
  let r := validate_voicehealth_json (st.input.map (fun cs => String.mk cs)) st.errbuf error_size
  (r.1, { input := st.input, errbuf := r.2 })

/-- The seven verbatim failure diagnostics of the source, in branch order. -/
def failureDiagnostics : List String :=
  [ ("Input string is null")
  , ("Malformed JSON")
  , ("Root must be a JSON object")
  , ("Missing or invalid 'symptoms' (must be array)")
  , ("Missing or invalid 'severity' (must be number)")
  , ("Severity must be between 0 and 10")
  , ("Missing or invalid 'potential_triggers' (must be array)") ]

theorem CDouble.den_cast_pos (d : CDouble) : (0 : ℚ) < (d.den : ℚ) := by
  exact_mod_cast d.dpos

theorem CDouble.ltInt_iff (d : CDouble) (k : Int) : d.ltInt k ↔ d.toRat < (k : ℚ) := by
  unfold CDouble.ltInt CDouble.toRat
  rw [div_lt_iff₀ d.den_cast_pos]
  constructor
  · intro h
    exact_mod_cast h
  · intro h
    exact_mod_cast h

theorem CDouble.gtInt_iff (d : CDouble) (k : Int) : d.gtInt k ↔ (k : ℚ) < d.toRat := by
  unfold CDouble.gtInt CDouble.toRat
  rw [lt_div_iff₀ d.den_cast_pos]
  constructor
  · intro h
    exact_mod_cast h
  · intro h
    exact_mod_cast h

theorem snprintf_written_length_le (size : Nat) (msg : String) (h : 0 < size) :
    (msg.toList.take (size - 1) ++ [Char.ofNat 0]).length ≤ size := by
  simp only [List.length_append, List.length_take, List.length_singleton]
  have := Nat.min_le_left (size - 1) msg.toList.length
  omega

theorem snprintf_s_drop_capacity (buf : List Char) (size : Nat) (msg : String) (h : 0 < size) :
    (snprintf_s buf size msg).drop size = buf.drop size := by
  unfold snprintf_s
  have hwl := snprintf_written_length_le size msg h
  rw [List.drop_append_eq_append_drop]
  rw [List.drop_eq_nil_of_le hwl, List.nil_append, List.drop_drop]
  congr 1
  omega

theorem snprintf_s_nul_mem (buf : List Char) (size : Nat) (msg : String) (h : 0 < size) :
    Char.ofNat 0 ∈ (snprintf_s buf size msg).take size := by
  unfold snprintf_s
  have hwl := snprintf_written_length_le size msg h
  rw [List.take_append_eq_append_take]
  apply List.mem_append_left
  rw [List.take_of_length_le hwl]
  exact List.mem_append_right _ (List.mem_singleton.mpr rfl)

theorem snprintf_s_idem (buf : List Char) (size : Nat) (msg : String) :
    snprintf_s (snprintf_s buf size msg) size msg = snprintf_s buf size msg := by
  show (msg.toList.take (size - 1) ++ [Char.ofNat 0]) ++
      ((msg.toList.take (size - 1) ++ [Char.ofNat 0]) ++
          buf.drop (msg.toList.take (size - 1) ++ [Char.ofNat 0]).length).drop
        (msg.toList.take (size - 1) ++ [Char.ofNat 0]).length
    = (msg.toList.take (size - 1) ++ [Char.ofNat 0]) ++
        buf.drop (msg.toList.take (size - 1) ++ [Char.ofNat 0]).length
  congr 1
  exact List.drop_left _ _

theorem set_error_idem (e : Option (List Char)) (size : Nat) (msg : String) :
    set_error (set_error e size msg) size msg = set_error e size msg := by
  cases e with
  | none => rfl
  | some buf =>
    by_cases h : 0 < size
    · simp [set_error, h, snprintf_s_idem]
    · simp [set_error, h]

theorem validate_voicehealth_json_fst (j : Option String) (e : Option (List Char)) (size : Nat) :
    (validate_voicehealth_json j e size).1 = (validate_decision j).1 := by
  unfold validate_voicehealth_json
  cases h : validate_decision j with
  | mk r m => cases m <;> simp

theorem validate_decision_outcomes (j : Option String) :
    validate_decision j = (1, none) ∨
      ∃ m, validate_decision j = (0, some m) ∧ m ∈ failureDiagnostics := by
  unfold validate_decision
  repeat' split
  all_goals
    first
      | (left ; rfl)
      | (right ; exact ⟨_, rfl, by simp [failureDiagnostics]⟩)

theorem validate_valid_of_schema (s : String) (fields : List (String × Json))
    (symItems trigItems : List Json) (d : CDouble)
    (hp : cJSON_Parse s = some (Json.obj fields))
    (hsym : lookupField fields ("symptoms") = some (Json.arr symItems))
    (hsev : lookupField fields ("severity") = some (Json.num d))
    (h0 : 0 ≤ d.toRat) (h10 : d.toRat ≤ 10)
    (htrig : lookupField fields ("potential_triggers") = some (Json.arr trigItems)) :
    validate_decision (some s) = (1, none) := by
  simp only [validate_decision]
  rw [hp]
  simp only [cJSON_IsObject, cJSON_GetObjectItemCaseSensitive, hsym, hsev, htrig,
    item_is_array, item_is_number, item_valuedouble, cJSON_IsArray, cJSON_IsNumber,
    Bool.not_true, Bool.false_eq_true, if_false]
  rw [if_neg]
  rintro (hl | hg)
  · rw [CDouble.ltInt_iff] at hl
    rw [show ((SEVERITY_MIN : Int) : ℚ) = 0 from by norm_num [SEVERITY_MIN]] at hl
    exact absurd hl (not_lt.mpr h0)
  · rw [CDouble.gtInt_iff] at hg
    rw [show ((SEVERITY_MAX : Int) : ℚ) = 10 from by norm_num [SEVERITY_MAX]] at hg
    exact absurd hg (not_lt.mpr h10)

theorem validate_severity_range_fail (s : String) (fields : List (String × Json))
    (symItems : List Json) (d : CDouble)
    (hp : cJSON_Parse s = some (Json.obj fields))
    (hsym : lookupField fields ("symptoms") = some (Json.arr symItems))
    (hsev : lookupField fields ("severity") = some (Json.num d))
    (hrange : d.toRat < 0 ∨ 10 < d.toRat) :
    validate_decision (some s) = (0, some ("Severity must be between 0 and 10")) := by
  simp only [validate_decision]
  rw [hp]
  simp only [cJSON_IsObject, cJSON_GetObjectItemCaseSensitive, hsym, hsev,
    item_is_array, item_is_number, item_valuedouble, cJSON_IsArray, cJSON_IsNumber,
    Bool.not_true, Bool.false_eq_true, if_false]
  rw [if_pos]
  rcases hrange with hl | hg
  · left
    rw [CDouble.ltInt_iff]
    rw [show ((SEVERITY_MIN : Int) : ℚ) = 0 from by norm_num [SEVERITY_MIN]]
    exact hl
  · right
    rw [CDouble.gtInt_iff]
    rw [show ((SEVERITY_MAX : Int) : ℚ) = 10 from by norm_num [SEVERITY_MAX]]
    exact hg

/-- C1: every input string that parses as a JSON object whose key
"symptoms" maps to an array, whose key "severity" maps to a number with
value in the inclusive range 0 to 10, and whose key "potential_triggers"
maps to an array, validates as the success result 1 with no diagnostic,
regardless of any additional fields present in the object. -/
theorem claim1_extra_fields_tolerated_valid (s : String) (fields : List (String × Json))
    (symItems trigItems : List Json) (d : CDouble)
    (hp : cJSON_Parse s = some (Json.obj fields))
    (hsym : lookupField fields ("symptoms") = some (Json.arr symItems))
    (hsev : lookupField fields ("severity") = some (Json.num d))
    (h0 : 0 ≤ d.toRat) (h10 : d.toRat ≤ 10)
    (htrig : lookupField fields ("potential_triggers") = some (Json.arr trigItems)) :
    validate_decision (some s) = (1, none) :=
  validate_valid_of_schema s fields symItems trigItems d hp hsym hsev h0 h10 htrig

/-- Witness for C1 at the spec's concrete example input carrying an extra
field. -/
theorem claim1_extra_fields_tolerated_valid_witness :
    validate_decision
        (some ("\x7b\"symptoms\":[],\"severity\":5,\"potential_triggers\":[],\"extra\":true\x7d"))
      = (1, none) :=
  claim1_extra_fields_tolerated_valid
    ("\x7b\"symptoms\":[],\"severity\":5,\"potential_triggers\":[],\"extra\":true\x7d")
    [(("symptoms"), Json.arr []), (("severity"), Json.num ⟨5, 1, by decide⟩),
      (("potential_triggers"), Json.arr []), (("extra"), Json.bool true)]
    [] [] ⟨5, 1, by decide⟩
    rfl rfl rfl
    (by norm_num [CDouble.toRat]) (by norm_num [CDouble.toRat])
    rfl

/-- C2: the checks short-circuit in the source's strict order, so an input
that parses as a JSON object in which both the "symptoms" lookup and the
"severity" lookup fail reports the symptoms diagnostic and never the
severity diagnostic. -/
theorem claim2_symptoms_reported_before_severity (s : String) (root : Json)
    (hp : cJSON_Parse s = some root)
    (hobj : cJSON_IsObject root = true)
    (hsym : cJSON_GetObjectItemCaseSensitive root ("symptoms") = none)
    (_hsev : cJSON_GetObjectItemCaseSensitive root ("severity") = none) :
    validate_decision (some s) = (0, some ("Missing or invalid 'symptoms' (must be array)")) ∧
      (validate_decision (some s)).2 ≠ some ("Missing or invalid 'severity' (must be number)") := by
  have h : validate_decision (some s)
      = (0, some ("Missing or invalid 'symptoms' (must be array)")) := by
    simp only [validate_decision]
    rw [hp]
    simp [hobj, hsym, item_is_array]
  refine ⟨h, ?_⟩
  rw [h]
  decide

/-- Witness for C2 at an object input carrying only "potential_triggers",
hence missing both "symptoms" and "severity". -/
theorem claim2_symptoms_reported_before_severity_witness :
    validate_decision (some ("\x7b\"potential_triggers\":[]\x7d"))
        = (0, some ("Missing or invalid 'symptoms' (must be array)")) ∧
      (validate_decision (some ("\x7b\"potential_triggers\":[]\x7d"))).2
        ≠ some ("Missing or invalid 'severity' (must be number)") :=
  claim2_symptoms_reported_before_severity
    ("\x7b\"potential_triggers\":[]\x7d")
    (Json.obj [(("potential_triggers"), Json.arr [])])
    rfl rfl rfl rfl

/-- C3: with the rest of the schema satisfied, a severity value of exactly
0 or exactly 10 (inclusive bounds) yields Valid, while any value strictly
below 0 or strictly above 10 yields Invalid with the severity-range
diagnostic. -/
theorem claim3_severity_inclusive_bounds (s : String) (fields : List (String × Json))
    (symItems trigItems : List Json) (d : CDouble)
    (hp : cJSON_Parse s = some (Json.obj fields))
    (hsym : lookupField fields ("symptoms") = some (Json.arr symItems))
    (hsev : lookupField fields ("severity") = some (Json.num d))
    (htrig : lookupField fields ("potential_triggers") = some (Json.arr trigItems)) :
    ((0 ≤ d.toRat ∧ d.toRat ≤ 10) → validate_decision (some s) = (1, none)) ∧
      ((d.toRat < 0 ∨ 10 < d.toRat) →
        validate_decision (some s) = (0, some ("Severity must be between 0 and 10"))) :=
  ⟨fun h => validate_valid_of_schema s fields symItems trigItems d hp hsym hsev h.1 h.2 htrig,
    fun h => validate_severity_range_fail s fields symItems d hp hsym hsev h⟩

/-- Witness for C3 at severities 0 and 10 (Valid) and at the spec's
out-of-range severities minus 0.0001 and 10.0001 (Invalid with the range
diagnostic). -/
theorem claim3_severity_inclusive_bounds_witness :
    validate_decision (some ("\x7b\"symptoms\":[],\"severity\":0,\"potential_triggers\":[]\x7d"))
        = (1, none) ∧
      validate_decision (some ("\x7b\"symptoms\":[],\"severity\":10,\"potential_triggers\":[]\x7d"))
        = (1, none) ∧
      validate_decision
          (some ("\x7b\"symptoms\":[],\"severity\":-0.0001,\"potential_triggers\":[]\x7d"))
        = (0, some ("Severity must be between 0 and 10")) ∧
      validate_decision
          (some ("\x7b\"symptoms\":[],\"severity\":10.0001,\"potential_triggers\":[]\x7d"))
        = (0, some ("Severity must be between 0 and 10")) :=
  ⟨(claim3_severity_inclusive_bounds
        ("\x7b\"symptoms\":[],\"severity\":0,\"potential_triggers\":[]\x7d")
        [(("symptoms"), Json.arr []), (("severity"), Json.num ⟨0, 1, by decide⟩),
          (("potential_triggers"), Json.arr [])]
        [] [] ⟨0, 1, by decide⟩ rfl rfl rfl rfl).1
      (by constructor <;> norm_num [CDouble.toRat]),
    (claim3_severity_inclusive_bounds
        ("\x7b\"symptoms\":[],\"severity\":10,\"potential_triggers\":[]\x7d")
        [(("symptoms"), Json.arr []), (("severity"), Json.num ⟨10, 1, by decide⟩),
          (("potential_triggers"), Json.arr [])]
        [] [] ⟨10, 1, by decide⟩ rfl rfl rfl rfl).1
      (by constructor <;> norm_num [CDouble.toRat]),
    (claim3_severity_inclusive_bounds
        ("\x7b\"symptoms\":[],\"severity\":-0.0001,\"potential_triggers\":[]\x7d")
        [(("symptoms"), Json.arr []), (("severity"), Json.num ⟨-1, 10000, by decide⟩),
          (("potential_triggers"), Json.arr [])]
        [] [] ⟨-1, 10000, by decide⟩ rfl rfl rfl rfl).2
      (Or.inl (by norm_num [CDouble.toRat])),
    (claim3_severity_inclusive_bounds
        ("\x7b\"symptoms\":[],\"severity\":10.0001,\"potential_triggers\":[]\x7d")
        [(("symptoms"), Json.arr []), (("severity"), Json.num ⟨100001, 10000, by decide⟩),
          (("potential_triggers"), Json.arr [])]
        [] [] ⟨100001, 10000, by decide⟩ rfl rfl rfl rfl).2
      (Or.inr (by norm_num [CDouble.toRat]))⟩

/-- C4: a null input pointer and an empty input string are distinct
failure cases: null input reports the null-input diagnostic, while the
empty string is syntactically malformed JSON and reports the malformed
diagnostic, never the null-input one. -/
theorem claim4_null_input_distinct_from_empty :
    validate_decision none = (0, some ("Input string is null")) ∧
      validate_decision (some ("")) = (0, some ("Malformed JSON")) ∧
      (validate_decision (some (""))).2 ≠ some ("Input string is null") :=
  ⟨rfl, by decide, by decide⟩

/-- C5: every call either succeeds with no diagnostic or fails carrying
one of exactly the seven verbatim diagnostic strings of
`failureDiagnostics`; in particular a non-object root such as a JSON
array or a bare number yields exactly the root diagnostic. -/
theorem claim5_closed_failure_enumeration :
    (∀ j : Option String,
      validate_decision j = (1, none) ∨
        ∃ m, validate_decision j = (0, some m) ∧ m ∈ failureDiagnostics) ∧
      failureDiagnostics.length = 7 ∧ failureDiagnostics.Nodup ∧
      validate_decision (some ("[1]")) = (0, some ("Root must be a JSON object")) ∧
      validate_decision (some ("5")) = (0, some ("Root must be a JSON object")) :=
  ⟨validate_decision_outcomes, by decide, by decide, by decide, by decide⟩

/-- C6: the error channel contract.  The boolean result never depends on
the caller's buffer or capacity; a null buffer is never written; a
zero-capacity buffer is left untouched; and on a failing call with a
non-null buffer of positive capacity the diagnostic is written with
truncate-and-terminate semantics: no byte at or beyond the capacity
changes, and a NUL terminator lies within the capacity. -/
theorem claim6_error_buffer_truncate_and_terminate (j : Option String) (buf : List Char)
    (size : Nat) (hsize : 0 < size)
    (hres : (validate_voicehealth_json j (some buf) size).1 = 0) :
    (validate_voicehealth_json j (some buf) size).1 = (validate_voicehealth_json j none size).1 ∧
      (validate_voicehealth_json j (some buf) 0).1
        = (validate_voicehealth_json j (some buf) size).1 ∧
      (validate_voicehealth_json j none size).2 = none ∧
      (validate_voicehealth_json j (some buf) 0).2 = some buf ∧
      ∃ b2, (validate_voicehealth_json j (some buf) size).2 = some b2 ∧
        b2.drop size = buf.drop size ∧ Char.ofNat 0 ∈ b2.take size := by
  rcases validate_decision_outcomes j with h | ⟨m, h, _⟩
  · rw [validate_voicehealth_json_fst, h] at hres
    simp at hres
  · unfold validate_voicehealth_json
    rw [h]
    refine ⟨rfl, rfl, rfl, ?_, ?_⟩
    · simp [set_error]
    · refine ⟨snprintf_s buf size m, ?_, snprintf_s_drop_capacity buf size m hsize,
        snprintf_s_nul_mem buf size m hsize⟩
      simp [set_error, hsize]

/-- Witness for C6 at a null input (an invalid call), a four-byte buffer
and capacity three. -/
theorem claim6_error_buffer_truncate_and_terminate_witness :
    0 < 3 ∧ (validate_voicehealth_json none (some ['a', 'b', 'c', 'd']) 3).1 = 0 ∧
      ((validate_voicehealth_json none (some ['a', 'b', 'c', 'd']) 3).1
          = (validate_voicehealth_json none none 3).1 ∧
        (validate_voicehealth_json none (some ['a', 'b', 'c', 'd']) 0).1
          = (validate_voicehealth_json none (some ['a', 'b', 'c', 'd']) 3).1 ∧
        (validate_voicehealth_json none none 3).2 = none ∧
        (validate_voicehealth_json none (some ['a', 'b', 'c', 'd']) 0).2
          = some ['a', 'b', 'c', 'd'] ∧
        ∃ b2, (validate_voicehealth_json none (some ['a', 'b', 'c', 'd']) 3).2 = some b2 ∧
          b2.drop 3 = (['a', 'b', 'c', 'd'] : List Char).drop 3 ∧
          Char.ofNat 0 ∈ b2.take 3) :=
  ⟨by decide, by decide,
    claim6_error_buffer_truncate_and_terminate none ['a', 'b', 'c', 'd'] 3
      (by decide) (by decide)⟩

/-- C7: validation is deterministic and idempotent: re-running the call on
the buffer state the first call produced changes nothing (same boolean
result, identical buffer contents), and the boolean result depends only
on the input content, not on the error-buffer contents. -/
theorem claim7_deterministic_idempotent :
    ∀ (j : Option String) (e e2 : Option (List Char)) (size : Nat),
      validate_voicehealth_json j (validate_voicehealth_json j e size).2 size
          = validate_voicehealth_json j e size ∧
        (validate_voicehealth_json j e size).1 = (validate_voicehealth_json j e2 size).1 := by
  intro j e e2 size
  constructor
  · unfold validate_voicehealth_json
    cases h : validate_decision j with
    | mk r m =>
      cases m with
      | none => simp
      | some msg => simp [set_error_idem]
  · rw [validate_voicehealth_json_fst, validate_voicehealth_json_fst]

/-- C8: the input text is never mutated: the bytes of the caller-visible
input region are identical before and after the call. -/
theorem claim8_input_never_mutated :
    ∀ (st : CallState) (size : Nat),
      ((validate_voicehealth_json_mem st size).2).input = st.input := by
  intro st size
  rfl

/-- C9: the returned int is always exactly 0 or exactly 1, for every input
and every error channel. -/
theorem claim9_returns_zero_or_one :
    ∀ (j : Option String) (e : Option (List Char)) (size : Nat),
      (validate_voicehealth_json j e size).1 = 0 ∨ (validate_voicehealth_json j e size).1 = 1 := by
  intro j e size
  rw [validate_voicehealth_json_fst]
  rcases validate_decision_outcomes j with h | ⟨m, h, _⟩
  · right
    rw [h]
  · left
    rw [h]

/-- C10: a successful call writes nothing to the error channel: when the
result is 1 the buffer is returned exactly as it was, for every buffer
and capacity. -/
theorem claim10_valid_leaves_buffer_untouched (j : Option String) (e : Option (List Char))
    (size : Nat) (h1 : (validate_voicehealth_json j e size).1 = 1) :
    (validate_voicehealth_json j e size).2 = e := by
  rcases validate_decision_outcomes j with h | ⟨m, h, _⟩
  · unfold validate_voicehealth_json
    rw [h]
  · rw [validate_voicehealth_json_fst, h] at h1
    simp at h1

/-- Witness for C10 at the spec's first concrete Valid scenario, a
two-byte buffer and capacity eight. -/
theorem claim10_valid_leaves_buffer_untouched_witness :
    (validate_voicehealth_json
        (some ("\x7b\"symptoms\":[\"headache\"],\"severity\":7,\"potential_triggers\":[\"caffeine\"]\x7d"))
        (some ['x', 'y']) 8).1 = 1 ∧
      (validate_voicehealth_json
          (some ("\x7b\"symptoms\":[\"headache\"],\"severity\":7,\"potential_triggers\":[\"caffeine\"]\x7d"))
          (some ['x', 'y']) 8).2 = some ['x', 'y'] :=
  ⟨by decide,
    claim10_valid_leaves_buffer_untouched
      (some ("\x7b\"symptoms\":[\"headache\"],\"severity\":7,\"potential_triggers\":[\"caffeine\"]\x7d"))
      (some ['x', 'y']) 8 (by decide)⟩
